import Mathlib

/-!
Verification of `darts/models/kalman_filter.py` (the darts `KalmanFilter`
filtering model, a wrapper around `filterpy.kalman.KalmanFilter`).

The embedding translates the source file into Lean:
* vectors and matrices are lists of rationals (numpy double arrays are
  modelled exactly over `ℚ`);
* the external collaborators that are not part of `src/` — the `filterpy`
  predict/update steps, the `TimeSeries` container, the base
  `FilteringModel` hook — are modelled from the specification;
* Python exceptions become an explicit error type: `filter` returns the
  post-call model state together with the outcome, because the source
  mutates `self.kf` in place and an exception may leave that mutation
  behind.
-/

deriving instance DecidableEq for Except

namespace Darts

/-- Vectors are lists of rationals (numpy 1-d arrays). -/
abbrev Vec := List ℚ

/-- Matrices are lists of rows (numpy 2-d arrays). -/
abbrev Mat := List (List ℚ)

/-- Dot product of two vectors. -/
def dotQ (u v : Vec) : ℚ := (List.zipWith (· * ·) u v).sum

/-- Componentwise vector addition. -/
def vecAdd (u v : Vec) : Vec := List.zipWith (· + ·) u v

/-- Componentwise vector subtraction. -/
def vecSub (u v : Vec) : Vec := List.zipWith (· - ·) u v

/-- Matrix–vector product. -/
def matVec (A : Mat) (v : Vec) : Vec := A.map (fun r => dotQ r v)

/-- Matrix–matrix product. -/
def matMulM (A B : Mat) : Mat :=
  let Bt := B.transpose
  A.map (fun r => Bt.map (fun c => dotQ r c))

/-- Componentwise matrix addition. -/
def matAddM (A B : Mat) : Mat := List.zipWith (List.zipWith (· + ·)) A B

/-- Componentwise matrix subtraction. -/
def matSubM (A B : Mat) : Mat := List.zipWith (List.zipWith (· - ·)) A B

/-- Identity matrix of size `n` (numpy `eye`). -/
def eyeQ (n : Nat) : Mat :=
  (List.range n).map (fun i => (List.range n).map (fun j => if i = j then (1 : ℚ) else 0))

/-- All-ones matrix of shape `r × c` (numpy `ones`). -/
def onesM (r c : Nat) : Mat := List.replicate r (List.replicate c (1 : ℚ))

/-- Zero vector of length `n` (numpy `zeros`). -/
def zerosV (n : Nat) : Vec := List.replicate n (0 : ℚ)

/-- Sign `(-1)^j` used in the Laplace expansion. -/
def altSign (j : Nat) : ℚ := if j % 2 = 0 then 1 else -1

/-- One row of the Laplace expansion of the determinant: entries `as` of the
first row starting at column index `j`, with `d` the determinant of the
remaining rows after deleting a column. -/
def detSum (d : Mat → ℚ) (rest : Mat) : List ℚ → Nat → ℚ
  | [], _ => 0
  | a :: as, j =>
      altSign j * a * d (rest.map (fun row => row.eraseIdx j)) + detSum d rest as (j + 1)

/-- Determinant by Laplace expansion along the first row, with explicit fuel
so that the recursion is structural. -/
def detAux : Nat → Mat → ℚ
  | 0, _ => 1
  | _ + 1, [] => 1
  | fuel + 1, r :: rest => detSum (detAux fuel) rest r 0

/-- Determinant of a square matrix. -/
def detM (A : Mat) : ℚ := detAux A.length A

/-- Minor of a matrix: delete row `i` and column `j`. -/
def minorM (A : Mat) (i j : Nat) : Mat :=
  (A.eraseIdx i).map (fun r => r.eraseIdx j)

/-- Adjugate (transposed cofactor) matrix. -/
def adjugateM (A : Mat) : Mat :=
  let n := A.length
  (List.range n).map (fun i =>
    (List.range n).map (fun j => altSign (i + j) * detM (minorM A j i)))

/-- Modelled from the spec: matrix inverse `S⁻¹` used by the Kalman gain.
The external implementation (numpy linear algebra, used by `filterpy`) is not
part of this repository; any exact inverse realises the spec's `S⁻¹`.
Computed here as `adjugate / det`. -/
def matInvM (A : Mat) : Mat :=
  let d := detM A
  (adjugateM A).map (fun row => row.map (fun x => x / d))

/-- Error kinds raised by the source.  `dimensionMismatch` is the
`raise_if_not` validation error of `filter` (spec: DimensionMismatchError);
`configurationError` is the spec's construction-validation error kind;
`attributeError` models a Python `AttributeError` (access to an attribute
that was never assigned); `valueError` models numpy's `ValueError` for
negative dimensions and mismatched reshapes. -/
inductive PyErr where
  | configurationError
  | dimensionMismatch
  | attributeError
  | valueError
deriving DecidableEq, Repr

/-- State of a `filterpy.kalman.KalmanFilter` instance, as used by the
source: dimensions, current mean `x`, covariance `P`, process noise `Q`,
measurement noise `R`, observation map `H`, transition `F`. -/
structure FpKalmanFilter where
  dim_x : Int
  dim_z : Nat
  x : Vec
  P : Mat
  Q : Mat
  R : Mat
  H : Mat
  F : Mat
deriving DecidableEq, Repr

/-- Modelled from the spec: the predict step of the external
`filterpy.kalman.KalmanFilter` (not part of this repository):
`mean' = F·mean`, `covariance' = F·covariance·Fᵗ + Q`. -/
def kfPredict (k : FpKalmanFilter) : FpKalmanFilter :=
  { k with
    x := matVec k.F k.x
    P := matAddM (matMulM (matMulM k.F k.P) k.F.transpose) k.Q }

/-- Modelled from the spec: the update step of the external
`filterpy.kalman.KalmanFilter` (not part of this repository):
`innovation = obs − H·mean'`, `S = H·covariance'·Hᵗ + R`,
`K = covariance'·Hᵗ·S⁻¹`, `mean'' = mean' + K·innovation`,
`covariance'' = (I − K·H)·covariance'`. -/
def kfUpdate (k : FpKalmanFilter) (z : Vec) : FpKalmanFilter :=
  let y := vecSub z (matVec k.H k.x)
  let S := matAddM (matMulM (matMulM k.H k.P) k.H.transpose) k.R
  let K := matMulM (matMulM k.P k.H.transpose) (matInvM S)
  { k with
    x := vecAdd k.x (matVec K y)
    P := matMulM (matSubM (eyeQ k.P.length) (matMulM K k.H)) k.P }

/-- One loop iteration of `KalmanFilter.filter`: `self.kf.predict()`
followed by `self.kf.update(obs)` (source lines 119–120). -/
def kfStep (k : FpKalmanFilter) (z : Vec) : FpKalmanFilter :=
  kfUpdate (kfPredict k) z

/-- The sequence of post-update means produced by processing the
observations in input order (one output row per observation). -/
def outs (k : FpKalmanFilter) : List Vec → List Vec
  | [] => []
  | z :: rest =>
      let k' := kfStep k z
      k'.x :: outs k' rest

/-- Decides whether every post-update mean along the run has length `dx`,
i.e. whether every `self.kf.x.reshape(self.dim_x,)` of the loop succeeds. -/
def loopOK (dx : Nat) : FpKalmanFilter → List Vec → Bool
  | _, [] => true
  | k, z :: rest =>
      let k' := kfStep k z
      decide (k'.x.length = dx) && loopOK dx k' rest

/-- Modelled from the spec: the `TimeSeries` container (not under `src/`),
reduced to the interface the source uses: `time_index()`, `values()` and
`width` (number of columns of the values array). -/
structure TimeSeries where
  times : List Int
  vals : List Vec
  width : Nat
deriving DecidableEq, Repr

/-- Modelled from the spec: `TimeSeries.from_times_and_values`; the width of
the produced series is the column count of the values array (`dim_x` for the
array allocated by `filter`). -/
def TimeSeries.from_times_and_values (times : List Int) (vals : List Vec) (w : Nat) :
    TimeSeries :=
  ⟨times, vals, w⟩

/-- Modelled from the spec: concatenation of two series of equal width
(timestamps and rows appended in order). -/
def TimeSeries.append (s t : TimeSeries) : TimeSeries :=
  ⟨s.times ++ t.times, s.vals ++ t.vals, s.width⟩

/-- Modelled from the spec: the base `FilteringModel.filter` hook (not under
`src/`); the spec specifies no observable behaviour for it, so it is a no-op. -/
def FilteringModel.filterHook (_series : TimeSeries) : Unit := ()

/-- State of a darts `KalmanFilter` model object.  Each field is an
attribute of `self`; `none` on the outer `Option` means the attribute was
never assigned (reading it raises `AttributeError`).  In the source the
attributes `R` and `H` may be assigned the value `None`, hence the nested
`Option`. -/
structure KalmanFilter where
  dim_x : Option Int
  x_init : Option Vec
  P : Option Mat
  Q : Option Mat
  R : Option (Option Mat)
  H : Option (Option Mat)
  F : Option Mat
  kf : Option FpKalmanFilter
deriving DecidableEq, Repr

/-- Numpy `np.zeros(n,)` for a possibly negative size (source line 70):
negative sizes raise `ValueError`. -/
def npZerosV (n : Int) : Except PyErr Vec :=
  if n < 0 then .error .valueError else .ok (zerosV n.toNat)

/-- Numpy `np.eye(n)` for a possibly negative size (source lines 71, 72, 75). -/
def npEyeI (n : Int) : Except PyErr Mat :=
  if n < 0 then .error .valueError else .ok (eyeQ n.toNat)

/-- Numpy `np.ones((r, c))` with a possibly negative column count
(source line 106). -/
def npOnesM (r : Nat) (c : Int) : Except PyErr Mat :=
  if c < 0 then .error .valueError else .ok (onesM r c.toNat)

/-- Default for `x_init` (source line 70): the given value, else `np.zeros(dim_x,)`. -/
def orZeros (v : Option Vec) (n : Int) : Except PyErr Vec :=
  match v with
  | some x => .ok x
  | none => npZerosV n

/-- Default for `P`, `Q`, `F` (source lines 71, 72, 75): the given value,
else `np.eye(dim_x)`. -/
def orEye (v : Option Mat) (n : Int) : Except PyErr Mat :=
  match v with
  | some x => .ok x
  | none => npEyeI n

/-- The source constructor `KalmanFilter.__init__` (source lines 14–78):
if `kf` is given, only `self.kf` is assigned (all parameter attributes stay
unassigned); otherwise every parameter attribute is assigned, with numpy
defaults materialised for `x_init`, `P`, `Q`, `F`, while `R` and `H` keep
the value `None` when unset. -/
def KalmanFilter.init (dim_x : Int) (x_init : Option Vec) (P Q R H F : Option Mat)
    (kf : Option FpKalmanFilter) : Except PyErr KalmanFilter :=
  match kf with
  | some k => .ok ⟨none, none, none, none, none, none, none, some k⟩
  | none =>
      match orZeros x_init dim_x, orEye P dim_x, orEye Q dim_x, orEye F dim_x with
      | .ok xi, .ok p, .ok q, .ok f =>
          .ok ⟨some dim_x, some xi, some p, some q, some R, some H, some f, none⟩
      | .error e, _, _, _ => .error e
      | _, .error e, _, _ => .error e
      | _, _, .error e, _ => .error e
      | _, _, _, .error e => .error e

/-- Default for `H` inside `filter` (source line 106): the stored value,
else `np.ones((dim_z, self.dim_x))`. -/
def orOnes (h : Option Mat) (r : Nat) (c : Int) : Except PyErr Mat :=
  match h with
  | some hm => .ok hm
  | none => npOnesM r c

/-- Source lines 100–111 of `KalmanFilter.filter`: obtain the internal
filter instance.  If `self.kf` is unset, build a fresh
`filterpy.kalman.KalmanFilter` from the stored parameters with `dim_z` the
width of the series (the defaults `np.eye(dim_z)` for `R` and
`np.ones((dim_z, dim_x))` for `H` applied here); if it is set, validate the
width against its `dim_z` via `raise_if_not`. -/
def KalmanFilter.setupKf (m : KalmanFilter) (dim_z : Nat) :
    Except PyErr FpKalmanFilter :=
  match m.kf with
  | some k => if dim_z = k.dim_z then .ok k else .error .dimensionMismatch
  | none =>
      match m.dim_x, m.x_init, m.P, m.Q, m.R, m.H, m.F with
      | some dx, some xi, some p, some q, some r, some h, some f =>
          match orOnes h dim_z dx with
          | .ok hh => .ok ⟨dx, dim_z, xi, p, q, r.getD (eyeQ dim_z), hh, f⟩
          | .error e => .error e
      | _, _, _, _, _, _, _ => .error .attributeError

/-- The filtering loop (source lines 117–122): for each observation in
order, predict then update, then store `self.kf.x.reshape(self.dim_x,)`
into the output array — which requires the mean to have exactly `dim_x`
entries.  Returns the mutated filter together with the outcome: a mid-loop
failure keeps the mutations already performed. -/
def runFilterLoop (dx : Nat) : FpKalmanFilter → List Vec → List Vec →
    FpKalmanFilter × Except PyErr (List Vec)
  | k, [], acc => (k, .ok acc.reverse)
  | k, z :: rest, acc =>
      let k' := kfStep k z
      if k'.x.length = dx then runFilterLoop dx k' rest (k'.x :: acc)
      else (k', .error .valueError)

/-- The source method `KalmanFilter.filter` (source lines 83–124).  Returns
the model state after the call together with the outcome, mirroring that
Python mutates `self.kf` in place: the internal filter is installed before
the loop and the loop's mutations survive an exception.  Reading
`self.dim_x` (source line 115) raises `AttributeError` when the model was
constructed from a pre-built filter instance, and `np.zeros((T, dim_x))`
raises `ValueError` for a negative `dim_x`.  The `super().filter(series)`
hook of source line 113 is the spec-modelled no-op
`FilteringModel.filterHook` and contributes nothing to the result. -/
def KalmanFilter.filter (m : KalmanFilter) (series : TimeSeries) :
    KalmanFilter × Except PyErr TimeSeries :=
  match m.setupKf series.width with
  | .error e => (m, .error e)
  | .ok k₀ =>
      match m.dim_x with
      | none => ({ m with kf := some k₀ }, .error .attributeError)
      | some dx =>
          if dx < 0 then ({ m with kf := some k₀ }, .error .valueError)
          else
            match runFilterLoop dx.toNat k₀ series.vals [] with
            | (kF, .error e) => ({ m with kf := some kF }, .error e)
            | (kF, .ok rows) =>
                ({ m with kf := some kF },
                 .ok (TimeSeries.from_times_and_values series.times rows dx.toNat))

/-- Concrete model used in witnesses: `dim_x = 1`, all defaults
(the state of `KalmanFilter(dim_x=1)` after `__init__`). -/
def mW : KalmanFilter :=
  ⟨some 1, some [0], some [[1]], some [[1]], some none, some none, some [[1]], none⟩

/-- Internal filter state after filtering one observation `z = 5` with `mW`. -/
def kfA : FpKalmanFilter := ⟨1, 1, [10/3], [[2/3]], [[1]], [[1]], [[1]], [[1]]⟩

/-- Internal filter state after filtering `z = 5` twice with `mW`. -/
def kfB : FpKalmanFilter := ⟨1, 1, [35/8], [[5/8]], [[1]], [[1]], [[1]], [[1]]⟩

/-- The model `mW` after its first `filter` call on `sW1`. -/
def mW1 : KalmanFilter := { mW with kf := some kfA }

/-- The model `mW` after filtering `sW1` and then `sW2`. -/
def mW2 : KalmanFilter := { mW with kf := some kfB }

/-- One-observation series `z = 5` at time 0. -/
def sW1 : TimeSeries := ⟨[0], [[5]], 1⟩

/-- One-observation series `z = 5` at time 1. -/
def sW2 : TimeSeries := ⟨[1], [[5]], 1⟩

/-- Output of filtering `sW1` with the fresh model `mW`. -/
def oW1 : TimeSeries := ⟨[0], [[10/3]], 1⟩

/-- Output of filtering `sW2` with `mW1`. -/
def oW2 : TimeSeries := ⟨[1], [[35/8]], 1⟩

/-- The spec's concrete scenario model: `dim_x = 1`, `F = H = Q = R = P = 1`
(as 1×1 matrices), `x_init = 0`, built from parameters. -/
def mC : KalmanFilter :=
  ⟨some 1, some [0], some [[1]], some [[1]], some (some [[1]]), some (some [[1]]),
   some [[1]], none⟩

/-- The spec's concrete scenario input: three identical observations
`z = [5, 5, 5]` at times 0, 1, 2. -/
def sC : TimeSeries := ⟨[0, 1, 2], [[5], [5], [5]], 1⟩

/-- A pre-built `filterpy` instance handed to the constructor
(`dim_x = 1`, `dim_z = 1`, all matrices 1×1 identity, zero mean). -/
def kfC : FpKalmanFilter := ⟨1, 1, [0], [[1]], [[1]], [[1]], [[1]], [[1]]⟩

/-- The model obtained by constructing with the pre-built instance `kfC`
(no parameter attribute is assigned in that branch of `__init__`). -/
def mP : KalmanFilter := ⟨none, none, none, none, none, none, none, some kfC⟩

end Darts

namespace Darts

/-! ## Structural lemmas about the loop body -/

/-- A predict/update step never changes the structural fields of the
internal filter: only the mean `x` and covariance `P` are mutated. -/
theorem kfStep_statics (k : FpKalmanFilter) (z : Vec) :
    (kfStep k z).dim_x = k.dim_x ∧ (kfStep k z).dim_z = k.dim_z ∧
    (kfStep k z).Q = k.Q ∧ (kfStep k z).R = k.R ∧
    (kfStep k z).H = k.H ∧ (kfStep k z).F = k.F :=
  ⟨rfl, rfl, rfl, rfl, rfl, rfl⟩

/-- Folding the loop body over any observation list preserves the
structural fields of the internal filter. -/
theorem foldl_kfStep_statics (zs : List Vec) (k : FpKalmanFilter) :
    (List.foldl kfStep k zs).dim_x = k.dim_x ∧
    (List.foldl kfStep k zs).dim_z = k.dim_z ∧
    (List.foldl kfStep k zs).Q = k.Q ∧ (List.foldl kfStep k zs).R = k.R ∧
    (List.foldl kfStep k zs).H = k.H ∧ (List.foldl kfStep k zs).F = k.F := by
  induction zs generalizing k with
  | nil => exact ⟨rfl, rfl, rfl, rfl, rfl, rfl⟩
  | cons z rest ih => simpa using ih (kfStep k z)

/-- The recorded outputs: one per observation. -/
theorem outs_length (zs : List Vec) (k : FpKalmanFilter) :
    (outs k zs).length = zs.length := by
  induction zs generalizing k with
  | nil => rfl
  | cons z rest ih => simp [outs, ih]

/-- Outputs of a concatenated run split at the fold midpoint. -/
theorem outs_append (xs ys : List Vec) (k : FpKalmanFilter) :
    outs k (xs ++ ys) = outs k xs ++ outs (List.foldl kfStep k xs) ys := by
  induction xs generalizing k with
  | nil => rfl
  | cons z rest ih => simp [outs, ih]

/-- The `i`-th recorded output is the post-update mean after processing the
first `i + 1` observations in order. -/
theorem outs_get (zs : List Vec) (k : FpKalmanFilter) (i : Nat)
    (hi : i < (outs k zs).length) :
    (outs k zs).get ⟨i, hi⟩ = (List.foldl kfStep k (zs.take (i + 1))).x := by
  induction zs generalizing k i with
  | nil => simp [outs] at hi
  | cons z rest ih =>
      cases i with
      | zero => simp [outs, List.foldl]
      | succ j =>
          have hi' : j < (outs (kfStep k z) rest).length := by
            have := hi
            simp only [outs, List.length_cons] at this
            omega
          simpa [outs] using ih (kfStep k z) j hi'

/-- `loopOK` over a concatenation splits at the fold midpoint. -/
theorem loopOK_append (dx : Nat) (xs ys : List Vec) (k : FpKalmanFilter) :
    loopOK dx k (xs ++ ys) =
      (loopOK dx k xs && loopOK dx (List.foldl kfStep k xs) ys) := by
  induction xs generalizing k with
  | nil => rfl
  | cons z rest ih => simp [loopOK, ih, Bool.and_assoc]

/-- When every reshape along the run succeeds, the loop returns the folded
filter state and the recorded outputs. -/
theorem runFilterLoop_ok_of_loopOK (dx : Nat) (zs : List Vec) (k : FpKalmanFilter)
    (acc : List Vec) (h : loopOK dx k zs = true) :
    runFilterLoop dx k zs acc =
      (List.foldl kfStep k zs, .ok (acc.reverse ++ outs k zs)) := by
  induction zs generalizing k acc with
  | nil => simp [runFilterLoop, outs]
  | cons z rest ih =>
      simp only [loopOK, Bool.and_eq_true, decide_eq_true_eq] at h
      simp [runFilterLoop, outs, h.1, ih _ _ h.2]

/-- If the loop returns successfully then every reshape along the run
succeeded. -/
theorem loopOK_of_runFilterLoop_ok (dx : Nat) (zs : List Vec) (k : FpKalmanFilter)
    (acc : List Vec) (kF : FpKalmanFilter) (rows : List Vec)
    (h : runFilterLoop dx k zs acc = (kF, .ok rows)) : loopOK dx k zs = true := by
  induction zs generalizing k acc with
  | nil => rfl
  | cons z rest ih =>
      by_cases hl : (kfStep k z).x.length = dx
      · simp only [runFilterLoop, hl, if_true] at h
        simp [loopOK, hl, ih _ _ h]
      · simp [runFilterLoop, hl] at h

/-- The loop itself never raises the dimension-mismatch error. -/
theorem runFilterLoop_ne_dimensionMismatch (dx : Nat) (zs : List Vec)
    (k : FpKalmanFilter) (acc : List Vec) :
    (runFilterLoop dx k zs acc).2 ≠ .error .dimensionMismatch := by
  induction zs generalizing k acc with
  | nil => simp [runFilterLoop]
  | cons z rest ih =>
      by_cases hl : (kfStep k z).x.length = dx
      · simpa [runFilterLoop, hl] using ih _ _
      · simp [runFilterLoop, hl]

/-! ## Characterisation of the `filter` method -/

/-- Collapsing two successive in-place assignments of `self.kf`. -/
theorem kf_update_collapse (m : KalmanFilter) (k k' : FpKalmanFilter) :
    ({ ({ m with kf := some k } : KalmanFilter) with kf := some k' } : KalmanFilter) =
      { m with kf := some k' } := rfl

/-- When the internal filter already exists, the set-up step of `filter`
is exactly the `raise_if_not` width validation around the cached instance. -/
theorem setupKf_of_kf_some (m : KalmanFilter) (k : FpKalmanFilter)
    (h : m.kf = some k) (w : Nat) :
    m.setupKf w = if w = k.dim_z then .ok k else .error .dimensionMismatch := by
  unfold KalmanFilter.setupKf
  rw [h]

/-- A successfully obtained internal filter always has the call's width as
its measurement dimensionality. -/
theorem setupKf_ok_dim_z (m : KalmanFilter) (w : Nat) (k : FpKalmanFilter)
    (h : m.setupKf w = .ok k) : k.dim_z = w := by
  unfold KalmanFilter.setupKf at h
  split at h
  · split at h
    · rw [Except.ok.injEq] at h
      subst h
      omega
    · exact absurd h (by simp)
  · split at h
    · split at h
      · rw [Except.ok.injEq] at h
        subst h
        rfl
      · exact absurd h (by simp)
    · exact absurd h (by simp)

/-- Branch equation of `filter`: a failing set-up step leaves the model
untouched and re-raises the error. -/
theorem filter_eq_of_setup_error (m : KalmanFilter) (s : TimeSeries) (e : PyErr)
    (hs : m.setupKf s.width = .error e) :
    KalmanFilter.filter m s = (m, .error e) := by
  unfold KalmanFilter.filter
  rw [hs]

/-- Branch equation of `filter`: reading the absent `dim_x` attribute
raises `AttributeError` after the internal filter was installed. -/
theorem filter_eq_of_dimx_none (m : KalmanFilter) (s : TimeSeries) (k₀ : FpKalmanFilter)
    (hs : m.setupKf s.width = .ok k₀) (hdx : m.dim_x = none) :
    KalmanFilter.filter m s = ({ m with kf := some k₀ }, .error .attributeError) := by
  unfold KalmanFilter.filter
  rw [hs, hdx]

/-- Branch equation of `filter`: a negative `dim_x` makes the output-array
allocation raise `ValueError` before the loop runs. -/
theorem filter_eq_of_neg (m : KalmanFilter) (s : TimeSeries) (k₀ : FpKalmanFilter) (dx : Int)
    (hs : m.setupKf s.width = .ok k₀) (hdx : m.dim_x = some dx) (hneg : dx < 0) :
    KalmanFilter.filter m s = ({ m with kf := some k₀ }, .error .valueError) := by
  unfold KalmanFilter.filter
  rw [hs, hdx]
  simp [hneg]

/-- Branch equation of `filter`: once set-up succeeded and `dim_x` is
non-negative, the result is determined by the loop's outcome, with the
loop's filter mutations kept in the model either way. -/
theorem filter_eq_of_run (m : KalmanFilter) (s : TimeSeries) (k₀ : FpKalmanFilter) (dx : Int)
    (kF : FpKalmanFilter) (res : Except PyErr (List Vec))
    (hs : m.setupKf s.width = .ok k₀) (hdx : m.dim_x = some dx) (hneg : ¬ dx < 0)
    (hrun : runFilterLoop dx.toNat k₀ s.vals [] = (kF, res)) :
    KalmanFilter.filter m s =
      (match res with
       | .error e => ({ m with kf := some kF }, .error e)
       | .ok rows => ({ m with kf := some kF },
            .ok (TimeSeries.from_times_and_values s.times rows dx.toNat))) := by
  unfold KalmanFilter.filter
  rw [hs, hdx]
  simp only [hneg, if_false, hrun]
  cases res <;> rfl

/-- A call of `filter` returns successfully exactly when: the set-up step
yields a filter `k₀`, the `dim_x` attribute exists and is non-negative, and
every reshape along the loop succeeds; in that case the final cached filter
is the fold of predict/update over the observations in order, and the output
carries the input timestamps, the recorded post-update means, and width
`dim_x`. -/
theorem filter_ok_iff (m m' : KalmanFilter) (s o : TimeSeries) :
    KalmanFilter.filter m s = (m', Except.ok o) ↔
      ∃ k₀ dx, m.setupKf s.width = .ok k₀ ∧ m.dim_x = some dx ∧ 0 ≤ dx ∧
        loopOK dx.toNat k₀ s.vals = true ∧
        m' = { m with kf := some (List.foldl kfStep k₀ s.vals) } ∧
        o = ⟨s.times, outs k₀ s.vals, dx.toNat⟩ := by
  constructor
  · intro h
    cases hs : m.setupKf s.width with
    | error e =>
        rw [filter_eq_of_setup_error m s e hs] at h
        simp at h
    | ok k₀ =>
        cases hdx : m.dim_x with
        | none =>
            rw [filter_eq_of_dimx_none m s k₀ hs hdx] at h
            simp at h
        | some dx =>
            by_cases hneg : dx < 0
            · rw [filter_eq_of_neg m s k₀ dx hs hdx hneg] at h
              simp at h
            · cases hrun : runFilterLoop dx.toNat k₀ s.vals [] with
              | mk kF res =>
                  rw [filter_eq_of_run m s k₀ dx kF res hs hdx hneg hrun] at h
                  cases res with
                  | error e => simp at h
                  | ok rows =>
                      have hloop := loopOK_of_runFilterLoop_ok _ _ _ _ _ _ hrun
                      have heq := runFilterLoop_ok_of_loopOK dx.toNat s.vals k₀ [] hloop
                      rw [hrun] at heq
                      simp only [List.reverse_nil, List.nil_append, Prod.mk.injEq,
                        Except.ok.injEq] at heq
                      obtain ⟨hkF, hrows⟩ := heq
                      simp only [Prod.mk.injEq, Except.ok.injEq] at h
                      refine ⟨k₀, dx, rfl, rfl, by omega, hloop, ?_, ?_⟩
                      · rw [← h.1, hkF, hdx]
                      · rw [← h.2, hrows]
                        rfl
  · rintro ⟨k₀, dx, hs, hdx, h0, hloop, hm', ho⟩
    subst hm'
    subst ho
    have hrun := runFilterLoop_ok_of_loopOK dx.toNat s.vals k₀ [] hloop
    rw [filter_eq_of_run m s k₀ dx _ _ hs hdx (by omega) hrun]
    rfl

/-! ## Characterisation of the constructor -/

/-- If the `x_init` default computation succeeds, its value is the given
vector or else `np.zeros(dim_x,)`. -/
theorem orZeros_ok (xi : Option Vec) (n : Int) (v : Vec)
    (h : orZeros xi n = .ok v) : v = xi.getD (zerosV n.toNat) := by
  cases xi with
  | some a => cases h; rfl
  | none =>
      by_cases hn : n < 0
      · simp [orZeros, npZerosV, hn] at h
      · simp only [orZeros, npZerosV, hn, if_false, Except.ok.injEq] at h
        simp [← h]

/-- If a matrix default computation succeeds, its value is the given matrix
or else `np.eye(n)`. -/
theorem orEye_ok (v : Option Mat) (n : Int) (a : Mat)
    (h : orEye v n = .ok a) : a = v.getD (eyeQ n.toNat) := by
  cases v with
  | some b => cases h; rfl
  | none =>
      by_cases hn : n < 0
      · simp [orEye, npEyeI, hn] at h
      · simp only [orEye, npEyeI, hn, if_false, Except.ok.injEq] at h
        simp [← h]

/-- A successful parametric construction stores `dim_x` and all parameter
attributes (defaults materialised for `x_init`, `P`, `Q`, `F`; `R` and `H`
stored as given, possibly `None`), and leaves `self.kf` unset. -/
theorem init_ok_elim (dx : Int) (xi : Option Vec) (P Q R H F : Option Mat)
    (m : KalmanFilter) (h : KalmanFilter.init dx xi P Q R H F none = .ok m) :
    m = ⟨some dx, some (xi.getD (zerosV dx.toNat)), some (P.getD (eyeQ dx.toNat)),
         some (Q.getD (eyeQ dx.toNat)), some R, some H,
         some (F.getD (eyeQ dx.toNat)), none⟩ := by
  unfold KalmanFilter.init at h
  cases h1 : orZeros xi dx <;> cases h2 : orEye P dx <;> cases h3 : orEye Q dx <;>
    cases h4 : orEye F dx <;> rw [h1, h2, h3, h4] at h <;> cases h
  rw [orZeros_ok xi dx _ h1, orEye_ok P dx _ h2, orEye_ok Q dx _ h3,
    orEye_ok F dx _ h4]

/-- A parametric construction succeeds whenever `dim_x` is non-negative. -/
theorem init_ok_of_nonneg (dx : Int) (xi : Option Vec) (P Q R H F : Option Mat)
    (h : 0 ≤ dx) :
    KalmanFilter.init dx xi P Q R H F none =
      .ok ⟨some dx, some (xi.getD (zerosV dx.toNat)), some (P.getD (eyeQ dx.toNat)),
           some (Q.getD (eyeQ dx.toNat)), some R, some H,
           some (F.getD (eyeQ dx.toNat)), none⟩ := by
  unfold KalmanFilter.init
  have hz : orZeros xi dx = .ok (xi.getD (zerosV dx.toNat)) := by
    cases xi with
    | some a => rfl
    | none => simp [orZeros, npZerosV, Int.not_lt.mpr h]
  have he : ∀ v : Option Mat, orEye v dx = .ok (v.getD (eyeQ dx.toNat)) := by
    intro v
    cases v with
    | some a => rfl
    | none => simp [orEye, npEyeI, Int.not_lt.mpr h]
  rw [hz, he P, he Q, he F]

/-- For a model holding all parameter attributes with a non-negative
`dim_x`, the set-up step of `filter` builds the internal filter exactly as
source lines 101–108 write it: `dim_z` from the call, mean `x_init`,
covariance `P`, process noise `Q`, `R` defaulting to `np.eye(dim_z)`,
`H` defaulting to `np.ones((dim_z, dim_x))`, transition `F`. -/
theorem setupKf_of_params (m : KalmanFilter) (dx : Int) (xi : Vec)
    (p q : Mat) (R H : Option Mat) (f : Mat) (w : Nat)
    (h1 : m.kf = none) (h2 : m.dim_x = some dx) (h3 : m.x_init = some xi)
    (h4 : m.P = some p) (h5 : m.Q = some q) (h6 : m.R = some R)
    (h7 : m.H = some H) (h8 : m.F = some f) (hdx : 0 ≤ dx) :
    m.setupKf w =
      .ok ⟨dx, w, xi, p, q, R.getD (eyeQ w), H.getD (onesM w dx.toNat), f⟩ := by
  unfold KalmanFilter.setupKf
  rw [h1, h2, h3, h4, h5, h6, h7, h8]
  cases H with
  | some hm => rfl
  | none => simp [orOnes, npOnesM, Int.not_lt.mpr hdx]

/-- Once the set-up step has produced an internal filter, no later part of
the call can raise the dimension-mismatch error. -/
theorem filter_snd_ne_dimensionMismatch (m : KalmanFilter) (s : TimeSeries)
    (k₀ : FpKalmanFilter) (hs : m.setupKf s.width = .ok k₀) :
    (KalmanFilter.filter m s).2 ≠ .error .dimensionMismatch := by
  cases hdx : m.dim_x with
  | none =>
      rw [filter_eq_of_dimx_none m s k₀ hs hdx]
      simp
  | some dx =>
      by_cases hneg : dx < 0
      · rw [filter_eq_of_neg m s k₀ dx hs hdx hneg]
        simp
      · cases hrun : runFilterLoop dx.toNat k₀ s.vals [] with
        | mk kF res =>
            rw [filter_eq_of_run m s k₀ dx kF res hs hdx hneg hrun]
            have hne := runFilterLoop_ne_dimensionMismatch dx.toNat s.vals k₀ []
            rw [hrun] at hne
            cases res with
            | error e => simpa using hne
            | ok rows => simp

/-- The loop body written with the spec's equations is the translated
predict-then-update step. -/
theorem explicit_step_eq_kfStep :
    (fun (k : FpKalmanFilter) (z : Vec) =>
      let xp := matVec k.F k.x
      let Pp := matAddM (matMulM (matMulM k.F k.P) k.F.transpose) k.Q
      let y := vecSub z (matVec k.H xp)
      let S := matAddM (matMulM (matMulM k.H Pp) k.H.transpose) k.R
      let K := matMulM (matMulM Pp k.H.transpose) (matInvM S)
      { k with
        x := vecAdd xp (matVec K y)
        P := matMulM (matSubM (eyeQ Pp.length) (matMulM K k.H)) Pp }) = kfStep := rfl

/-! ## Claim theorems -/

/-- C1: for every observation sequence accepted by `filter`, the
observations are processed strictly in input order, each by a predict step
(`mean' = F·mean`, `covariance' = F·covariance·Fᵗ + Q`) followed by an
update step (`innovation = obs − H·mean'`, `S = H·covariance'·Hᵗ + R`,
`K = covariance'·Hᵗ·S⁻¹`, `mean'' = mean' + K·innovation`,
`covariance'' = (I − K·H)·covariance'`), and the `i`-th output value is the
post-update mean after processing the `i`-th observation, i.e. the mean of
the fold of that step over the first `i + 1` observations starting from the
internal filter the call set up. -/
theorem C1_filter_sequential_predict_update (m m' : KalmanFilter) (s o : TimeSeries)
    (h : KalmanFilter.filter m s = (m', .ok o)) :
    ∃ k₀, m.setupKf s.width = .ok k₀ ∧
      o.vals.length = s.vals.length ∧
      ∀ i (hi : i < o.vals.length),
        o.vals.get ⟨i, hi⟩ =
          (List.foldl
            (fun (k : FpKalmanFilter) (z : Vec) =>
              let xp := matVec k.F k.x
              let Pp := matAddM (matMulM (matMulM k.F k.P) k.F.transpose) k.Q
              let y := vecSub z (matVec k.H xp)
              let S := matAddM (matMulM (matMulM k.H Pp) k.H.transpose) k.R
              let K := matMulM (matMulM Pp k.H.transpose) (matInvM S)
              { k with
                x := vecAdd xp (matVec K y)
                P := matMulM (matSubM (eyeQ Pp.length) (matMulM K k.H)) Pp })
            k₀ (s.vals.take (i + 1))).x := by
  obtain ⟨k₀, dx, hs, hdx, h0, hloop, hm', ho⟩ := (filter_ok_iff m m' s o).1 h
  subst ho
  refine ⟨k₀, hs, ?_, ?_⟩
  · simpa using outs_length s.vals k₀
  · intro i hi
    rw [explicit_step_eq_kfStep]
    exact outs_get s.vals k₀ i hi

/-- C2: a successful `filter` call returns a series with exactly the input
timestamps, one output row per input row, and width equal to the model's
`dim_x`, whatever the input width was. -/
theorem C2_output_times_length_width (m m' : KalmanFilter) (s o : TimeSeries)
    (h : KalmanFilter.filter m s = (m', .ok o)) :
    o.times = s.times ∧ o.vals.length = s.vals.length ∧
      ∃ dx : Int, m.dim_x = some dx ∧ (o.width : Int) = dx := by
  obtain ⟨k₀, dx, hs, hdx, h0, hloop, hm', ho⟩ := (filter_ok_iff m m' s o).1 h
  subst ho
  exact ⟨rfl, by simpa using outs_length s.vals k₀,
    dx, hdx, by simpa using Int.toNat_of_nonneg h0⟩

/-- C4: once the internal filter exists, a `filter` call raises the
dimension-mismatch validation error precisely when the input width differs
from the filter's `dim_z`; a matching width never produces that error. -/
theorem C4_dimension_mismatch_iff (m : KalmanFilter) (k : FpKalmanFilter)
    (s : TimeSeries) (hk : m.kf = some k) :
    (KalmanFilter.filter m s).2 = .error .dimensionMismatch ↔ s.width ≠ k.dim_z := by
  by_cases hw : s.width = k.dim_z
  · have hs : m.setupKf s.width = .ok k := by
      rw [setupKf_of_kf_some m k hk, if_pos hw]
    constructor
    · intro hcontra
      exact absurd hcontra (filter_snd_ne_dimensionMismatch m s k hs)
    · intro hne
      exact absurd hw hne
  · have hs : m.setupKf s.width = .error .dimensionMismatch := by
      rw [setupKf_of_kf_some m k hk, if_neg hw]
    rw [filter_eq_of_setup_error m s _ hs]
    simpa using hw

/-- C9: when a `filter` call on an already-initialised model fails with the
dimension-mismatch error, the model — in particular the internal filter's
mean and covariance — is left exactly as it was. -/
theorem C9_dimension_mismatch_preserves_state (m m' : KalmanFilter)
    (k : FpKalmanFilter) (s : TimeSeries) (hk : m.kf = some k)
    (h : KalmanFilter.filter m s = (m', .error .dimensionMismatch)) :
    m' = m := by
  by_cases hw : s.width = k.dim_z
  · have hs : m.setupKf s.width = .ok k := by
      rw [setupKf_of_kf_some m k hk, if_pos hw]
    have hne := filter_snd_ne_dimensionMismatch m s k hs
    rw [h] at hne
    exact absurd rfl hne
  · have hs : m.setupKf s.width = .error .dimensionMismatch := by
      rw [setupKf_of_kf_some m k hk, if_neg hw]
    rw [filter_eq_of_setup_error m s _ hs] at h
    cases h
    rfl

/-- C3: on a parametrically constructed model, filtering two same-width
sequences one after the other is the same as filtering their concatenation
in one call: the final model (hence the internal filter's final mean and
covariance) coincides, and the two outputs concatenated are the single
call's output. -/
theorem C3_filter_calls_compose (dx : Int) (xi : Option Vec) (P Q R H F : Option Mat)
    (m m₁ m₂ : KalmanFilter) (s₁ s₂ o₁ o₂ : TimeSeries)
    (hinit : KalmanFilter.init dx xi P Q R H F none = .ok m)
    (hw : s₁.width = s₂.width)
    (h1 : KalmanFilter.filter m s₁ = (m₁, .ok o₁))
    (h2 : KalmanFilter.filter m₁ s₂ = (m₂, .ok o₂)) :
    KalmanFilter.filter m (s₁.append s₂) = (m₂, .ok (o₁.append o₂)) := by
  obtain ⟨k₀, dxa, hs, hdx, h0, hloop, hm1, ho1⟩ := (filter_ok_iff m m₁ s₁ o₁).1 h1
  obtain ⟨k₁, dxb, hs2, hdx2, h0b, hloop2, hm2, ho2⟩ := (filter_ok_iff m₁ m₂ s₂ o₂).1 h2
  subst hm1
  subst hm2
  subst ho1
  subst ho2
  have hdxb : m.dim_x = some dxb := hdx2
  rw [hdx, Option.some.injEq] at hdxb
  subst hdxb
  have hs2' : (if s₂.width = (List.foldl kfStep k₀ s₁.vals).dim_z
      then Except.ok (List.foldl kfStep k₀ s₁.vals)
      else Except.error PyErr.dimensionMismatch) = .ok k₁ := by
    rw [← setupKf_of_kf_some { m with kf := some (List.foldl kfStep k₀ s₁.vals) }
        (List.foldl kfStep k₀ s₁.vals) rfl s₂.width]
    exact hs2
  by_cases hw2 : s₂.width = (List.foldl kfStep k₀ s₁.vals).dim_z
  · rw [if_pos hw2, Except.ok.injEq] at hs2'
    subst hs2'
    refine (filter_ok_iff m _ (s₁.append s₂) _).2 ⟨k₀, dxa, hs, hdx, h0, ?_, ?_, ?_⟩
    · show loopOK dxa.toNat k₀ (s₁.vals ++ s₂.vals) = true
      rw [loopOK_append, hloop, hloop2]
      rfl
    · show ({ m with kf := some (List.foldl kfStep _ s₂.vals) } : KalmanFilter) = _
      rw [← List.foldl_append]
      rfl
    · simp [TimeSeries.append, outs_append]
  · rw [if_neg hw2] at hs2'
    cases hs2'

/-- C8: on a parametrically constructed model, the internal filter is built
during the first call — with `dim_z` the width of that call's input, mean
`x_init`, covariance `P`, process noise `Q`, measurement noise `R`
(identity of size `dim_z` if unset), observation map `H` (all-ones
`dim_z × dim_x` if unset) and transition `F` — and every later call reuses
the cached instance (the set-up step returns it unchanged, never
rebuilding), mutating only its mean and covariance. -/
theorem C8_internal_filter_built_once (dx : Int) (xi : Option Vec)
    (P Q R H F : Option Mat) (m m₁ : KalmanFilter) (s₁ o₁ : TimeSeries)
    (hinit : KalmanFilter.init dx xi P Q R H F none = .ok m)
    (h1 : KalmanFilter.filter m s₁ = (m₁, .ok o₁)) :
    ∃ k₀, m.setupKf s₁.width = .ok k₀ ∧
      k₀ = ⟨dx, s₁.width, xi.getD (zerosV dx.toNat), P.getD (eyeQ dx.toNat),
            Q.getD (eyeQ dx.toNat), R.getD (eyeQ s₁.width),
            H.getD (onesM s₁.width dx.toNat), F.getD (eyeQ dx.toNat)⟩ ∧
      m₁.kf = some (List.foldl kfStep k₀ s₁.vals) ∧
      (∀ (mm : KalmanFilter) (k : FpKalmanFilter) (w : Nat), mm.kf = some k →
        (mm.setupKf w = .ok k ↔ w = k.dim_z)) ∧
      (∀ s₂ m₂ o₂, KalmanFilter.filter m₁ s₂ = (m₂, .ok o₂) →
        m₂.kf = some (List.foldl kfStep (List.foldl kfStep k₀ s₁.vals) s₂.vals) ∧
        ∀ k₂, m₂.kf = some k₂ → k₂.dim_x = k₀.dim_x ∧ k₂.dim_z = k₀.dim_z ∧
          k₂.Q = k₀.Q ∧ k₂.R = k₀.R ∧ k₂.H = k₀.H ∧ k₂.F = k₀.F) := by
  obtain ⟨k₀, dxa, hs, hdx, h0, hloop, hm1, ho1⟩ := (filter_ok_iff m m₁ s₁ o₁).1 h1
  have hm := init_ok_elim dx xi P Q R H F m hinit
  have hdxa : dxa = dx := by
    have h' : some dx = some dxa := by
      rw [← hdx, hm]
    exact (Option.some_inj.mp h').symm
  rw [hdxa] at h0 hloop
  have h0' : (0 : Int) ≤ dx := h0
  have hsetup := setupKf_of_params m dx (xi.getD (zerosV dx.toNat))
    (P.getD (eyeQ dx.toNat)) (Q.getD (eyeQ dx.toNat)) R H
    (F.getD (eyeQ dx.toNat)) s₁.width (by rw [hm]) (by rw [hm]) (by rw [hm])
    (by rw [hm]) (by rw [hm]) (by rw [hm]) (by rw [hm]) (by rw [hm]) h0'
  rw [hs, Except.ok.injEq] at hsetup
  refine ⟨k₀, hs, hsetup, by rw [hm1], ?_, ?_⟩
  · intro mm k w hk
    rw [setupKf_of_kf_some mm k hk w]
    constructor
    · intro hok
      by_cases hww : w = k.dim_z
      · exact hww
      · rw [if_neg hww] at hok
        cases hok
    · intro hww
      rw [if_pos hww]
  · intro s₂ m₂ o₂ h2
    obtain ⟨k₁, dxb, hs2, hdx2, h0b, hloop2, hm2, ho2⟩ :=
      (filter_ok_iff m₁ m₂ s₂ o₂).1 h2
    have hk1 : m₁.kf = some (List.foldl kfStep k₀ s₁.vals) := by rw [hm1]
    have hs2' : (if s₂.width = (List.foldl kfStep k₀ s₁.vals).dim_z
        then Except.ok (List.foldl kfStep k₀ s₁.vals)
        else Except.error PyErr.dimensionMismatch) = .ok k₁ := by
      rw [← setupKf_of_kf_some m₁ (List.foldl kfStep k₀ s₁.vals) hk1 s₂.width]
      exact hs2
    by_cases hw2 : s₂.width = (List.foldl kfStep k₀ s₁.vals).dim_z
    · rw [if_pos hw2, Except.ok.injEq] at hs2'
      subst hs2'
      constructor
      · rw [hm2, hm1]
      · intro k₂ hk₂
        rw [hm2, hm1] at hk₂
        simp only [Option.some.injEq] at hk₂
        subst hk₂
        obtain ⟨ha1, ha2, ha3, ha4, ha5, ha6⟩ :=
          foldl_kfStep_statics s₂.vals (List.foldl kfStep k₀ s₁.vals)
        obtain ⟨hb1, hb2, hb3, hb4, hb5, hb6⟩ := foldl_kfStep_statics s₁.vals k₀
        exact ⟨by rw [ha1, hb1], by rw [ha2, hb2], by rw [ha3, hb3],
          by rw [ha4, hb4], by rw [ha5, hb5], by rw [ha6, hb6]⟩
    · rw [if_neg hw2] at hs2'
      cases hs2'

/-- C10: filtering an empty series with a fresh parametric model succeeds,
returns an empty series of width `dim_x` carrying the empty time index, and
still builds and caches the internal filter with `dim_z` equal to the empty
input's width — so a later call with any other width fails the dimension
check even though no observation was ever processed. -/
theorem C10_empty_series_initialises_filter (dxn : Nat) (xi : Option Vec)
    (P Q R H F : Option Mat) (w : Nat) (m : KalmanFilter)
    (hinit : KalmanFilter.init (dxn : Int) xi P Q R H F none = .ok m) :
    ∃ k₀, KalmanFilter.filter m ⟨[], [], w⟩ =
        ({ m with kf := some k₀ }, .ok ⟨[], [], dxn⟩) ∧
      k₀.dim_z = w ∧
      ∀ s' : TimeSeries, s'.width ≠ w →
        KalmanFilter.filter { m with kf := some k₀ } s' =
          ({ m with kf := some k₀ }, .error .dimensionMismatch) := by
  have hm := init_ok_elim (dxn : Int) xi P Q R H F m hinit
  have h0 : (0 : Int) ≤ (dxn : Int) := Int.natCast_nonneg dxn
  have hsetup := setupKf_of_params m (dxn : Int) (xi.getD (zerosV (dxn : Int).toNat))
    (P.getD (eyeQ (dxn : Int).toNat)) (Q.getD (eyeQ (dxn : Int).toNat)) R H
    (F.getD (eyeQ (dxn : Int).toNat)) w (by rw [hm]) (by rw [hm]) (by rw [hm])
    (by rw [hm]) (by rw [hm]) (by rw [hm]) (by rw [hm]) (by rw [hm]) h0
  refine ⟨⟨(dxn : Int), w, xi.getD (zerosV (dxn : Int).toNat),
      P.getD (eyeQ (dxn : Int).toNat), Q.getD (eyeQ (dxn : Int).toNat),
      R.getD (eyeQ w), H.getD (onesM w (dxn : Int).toNat),
      F.getD (eyeQ (dxn : Int).toNat)⟩, ?_, rfl, ?_⟩
  · refine (filter_ok_iff m _ ⟨[], [], w⟩ ⟨[], [], dxn⟩).2
      ⟨_, (dxn : Int), hsetup, by rw [hm], h0, rfl, rfl, ?_⟩
    show (⟨[], [], dxn⟩ : TimeSeries) = ⟨[], outs _ [], (dxn : Int).toNat⟩
    simp [outs]
  · intro s' hw'
    exact filter_eq_of_setup_error _ s' _
      (by rw [setupKf_of_kf_some _ _ rfl s'.width, if_neg (fun hc => hw' hc)])

/-- An `x_init` default computation can only fail with numpy's
`ValueError`. -/
theorem orZeros_error (xi : Option Vec) (n : Int) (e : PyErr)
    (h : orZeros xi n = .error e) : e = .valueError := by
  cases xi with
  | some a => cases h
  | none =>
      by_cases hn : n < 0
      · simp only [orZeros, npZerosV, hn, if_true] at h
        cases h
        rfl
      · simp [orZeros, npZerosV, hn] at h

/-- A matrix default computation can only fail with numpy's `ValueError`. -/
theorem orEye_error (v : Option Mat) (n : Int) (e : PyErr)
    (h : orEye v n = .error e) : e = .valueError := by
  cases v with
  | some a => cases h
  | none =>
      by_cases hn : n < 0
      · simp only [orEye, npEyeI, hn, if_true] at h
        cases h
        rfl
      · simp [orEye, npEyeI, hn] at h

/-- C5 (counterexample): in the spec's concrete scenario (`dim_x = 1`,
`F = H = Q = R = P = 1`, `x_init = 0`, observations `[5, 5, 5]`) the code's
first output is `10/3 ≈ 3.33`, not approximately `2.5`: it differs from
`5/2` by `5/6`, because the predict step inflates `P` to 2 before the first
update, giving gain `2/3`. -/
theorem C5_counterexample_first_output_not_5_halves :
    (KalmanFilter.filter mC sC).2 =
      .ok ⟨[0, 1, 2], [[10/3], [35/8], [100/21]], 1⟩ ∧
    (10 : ℚ)/3 - 5/2 = 5/6 ∧ ¬ ((10 : ℚ)/3 - 5/2 ≤ 1/3) :=
  ⟨by with_unfolding_all decide, by norm_num, by norm_num⟩

/-- C5 (amended): in the spec's concrete scenario the output sequence is
exactly `[10/3, 35/8, 100/21]` — strictly increasing and below 5, i.e.
monotonically converging towards 5 with first output `10/3 ≈ 3.33`
(not `≈ 2.5`). -/
theorem C5_amended_monotone_towards_five :
    (KalmanFilter.filter mC sC).2 =
      .ok ⟨[0, 1, 2], [[10/3], [35/8], [100/21]], 1⟩ ∧
    (10 : ℚ)/3 < 35/8 ∧ (35 : ℚ)/8 < 100/21 ∧ (100 : ℚ)/21 < 5 :=
  ⟨by with_unfolding_all decide, by norm_num, by norm_num, by norm_num⟩

/-- C6 (counterexample): constructing with `dim_x = 0` from parameters
succeeds (numpy happily materialises 0-sized defaults) — no
`ConfigurationError` is raised. -/
theorem C6_counterexample_dim_x_zero_succeeds :
    KalmanFilter.init 0 none none none none none none none =
      .ok ⟨some 0, some [], some [], some [], some none, some none, some [], none⟩ := by
  with_unfolding_all decide

/-- C6 (amended): the constructor performs no validation of `dim_x` and can
never fail with `ConfigurationError`: any non-negative `dim_x` (zero
included) succeeds, a negative `dim_x` with all defaulted arrays supplied
also succeeds, and a negative `dim_x` fails only with numpy's `ValueError`
when a default array has to be materialised. -/
theorem C6_amended_no_dim_x_validation (dx : Int) (xi : Option Vec)
    (P Q R H F : Option Mat) (kf : Option FpKalmanFilter) :
    KalmanFilter.init dx xi P Q R H F kf ≠ .error .configurationError ∧
    (0 ≤ dx → ∃ m, KalmanFilter.init dx xi P Q R H F none = .ok m) ∧
    (xi ≠ none → P ≠ none → Q ≠ none → F ≠ none →
      ∃ m, KalmanFilter.init dx xi P Q R H F none = .ok m) ∧
    (dx < 0 → xi = none → KalmanFilter.init dx xi P Q R H F none = .error .valueError) := by
  refine ⟨?_, ?_, ?_, ?_⟩
  · intro h
    cases kf with
    | some k =>
        unfold KalmanFilter.init at h
        cases h
    | none =>
        unfold KalmanFilter.init at h
        cases h1 : orZeros xi dx <;> cases h2 : orEye P dx <;> cases h3 : orEye Q dx <;>
          cases h4 : orEye F dx <;> rw [h1, h2, h3, h4] at h <;> cases h <;>
          first
            | exact absurd (orZeros_error xi dx _ h1) (by decide)
            | exact absurd (orEye_error P dx _ h2) (by decide)
            | exact absurd (orEye_error Q dx _ h3) (by decide)
            | exact absurd (orEye_error F dx _ h4) (by decide)
  · intro h0
    exact ⟨_, init_ok_of_nonneg dx xi P Q R H F h0⟩
  · intro hxi hP hQ hF
    obtain ⟨a, rfl⟩ := Option.ne_none_iff_exists.mp hxi
    obtain ⟨p, rfl⟩ := Option.ne_none_iff_exists.mp hP
    obtain ⟨q, rfl⟩ := Option.ne_none_iff_exists.mp hQ
    obtain ⟨f, rfl⟩ := Option.ne_none_iff_exists.mp hF
    exact ⟨_, rfl⟩
  · intro hneg hxi
    subst hxi
    unfold KalmanFilter.init
    have h1 : orZeros none dx = .error .valueError := by
      simp [orZeros, npZerosV, hneg]
    rw [h1]
    cases h2 : orEye P dx <;> cases h3 : orEye Q dx <;> cases h4 : orEye F dx <;> rfl

/-- C7 (code bug): constructing with a pre-built filter instance assigns
only `self.kf` and ignores the parameters, but `filter` then reads the
never-assigned `self.dim_x` attribute (source line 115) and crashes with
`AttributeError` even on an input whose width matches the supplied
instance's `dim_z` — contradicting the constructor's documented contract
that the supplied instance's dimensions govern the call. -/
theorem C7_prebuilt_instance_filter_crashes :
    KalmanFilter.init 5 (some [7]) none none none none none (some kfC) = .ok mP ∧
    sW1.width = kfC.dim_z ∧
    KalmanFilter.filter mP sW1 = (mP, .error .attributeError) :=
  ⟨by with_unfolding_all decide, rfl, by with_unfolding_all decide⟩

/-! ## Witnesses -/

/-- Witness for C1: the hypotheses hold at the concrete one-observation run
with the fresh default model, and the theorem applies. -/
theorem C1_witness :
    KalmanFilter.filter mW sW1 = (mW1, .ok oW1) ∧
      oW1.vals.length = sW1.vals.length := by
  obtain ⟨k₀, hsetup, hlen, hget⟩ :=
    C1_filter_sequential_predict_update mW mW1 sW1 oW1 (by with_unfolding_all decide)
  exact ⟨by with_unfolding_all decide, hlen⟩

/-- Witness for C2 at the same concrete run. -/
theorem C2_witness :
    KalmanFilter.filter mW sW1 = (mW1, .ok oW1) ∧
      (oW1.times = sW1.times ∧ oW1.vals.length = sW1.vals.length ∧
        ∃ dx : Int, mW.dim_x = some dx ∧ (oW1.width : Int) = dx) :=
  ⟨by with_unfolding_all decide,
   C2_output_times_length_width mW mW1 sW1 oW1 (by with_unfolding_all decide)⟩

/-- Witness for C3: two one-observation calls against the single call on
the concatenated series. -/
theorem C3_witness :
    KalmanFilter.init 1 none none none none none none none = .ok mW ∧
    sW1.width = sW2.width ∧
    KalmanFilter.filter mW sW1 = (mW1, .ok oW1) ∧
    KalmanFilter.filter mW1 sW2 = (mW2, .ok oW2) ∧
    KalmanFilter.filter mW (sW1.append sW2) = (mW2, .ok (oW1.append oW2)) :=
  ⟨by with_unfolding_all decide, rfl, by with_unfolding_all decide,
   by with_unfolding_all decide,
   C3_filter_calls_compose 1 none none none none none none mW mW1 mW2 sW1 sW2 oW1 oW2
     (by with_unfolding_all decide) rfl (by with_unfolding_all decide)
     (by with_unfolding_all decide)⟩

/-- Witness for C4: on the initialised model a width-2 series triggers the
dimension check. -/
theorem C4_witness :
    mW1.kf = some kfA ∧
    ((KalmanFilter.filter mW1 ⟨[], [], 2⟩).2 = .error .dimensionMismatch ↔
      (⟨[], [], 2⟩ : TimeSeries).width ≠ kfA.dim_z) :=
  ⟨rfl, C4_dimension_mismatch_iff mW1 kfA ⟨[], [], 2⟩ rfl⟩

/-- Witness for C6 (amended) at `dim_x = -1` and `dim_x = -1` with arrays
supplied. -/
theorem C6_amended_witness :
    KalmanFilter.init (-1) none none none none none none none ≠
      .error .configurationError ∧
    KalmanFilter.init (-1) none none none none none none none = .error .valueError ∧
    ∃ m, KalmanFilter.init (-1) (some []) (some []) (some []) none none (some [])
      none = .ok m :=
  ⟨(C6_amended_no_dim_x_validation (-1) none none none none none none none).1,
   (C6_amended_no_dim_x_validation (-1) none none none none none none none).2.2.2
     (by decide) rfl,
   (C6_amended_no_dim_x_validation (-1) (some []) (some []) (some []) none none
     (some []) none).2.2.1 (by simp) (by simp) (by simp) (by simp)⟩

/-- Witness for C8 at the concrete first call. -/
theorem C8_witness :
    KalmanFilter.init 1 none none none none none none none = .ok mW ∧
    KalmanFilter.filter mW sW1 = (mW1, .ok oW1) ∧
    ∃ k₀, mW.setupKf sW1.width = .ok k₀ ∧
      mW1.kf = some (List.foldl kfStep k₀ sW1.vals) := by
  obtain ⟨k₀, hs, hk, hkf, hreuse, hnext⟩ :=
    C8_internal_filter_built_once 1 none none none none none none mW mW1 sW1 oW1
      (by with_unfolding_all decide) (by with_unfolding_all decide)
  exact ⟨by with_unfolding_all decide, by with_unfolding_all decide, k₀, hs, hkf⟩

/-- Witness for C9: the mismatching call returns the model unchanged. -/
theorem C9_witness :
    mW1.kf = some kfA ∧
    KalmanFilter.filter mW1 ⟨[], [], 2⟩ = (mW1, .error .dimensionMismatch) ∧
    mW1 = mW1 :=
  ⟨rfl, by with_unfolding_all decide,
   C9_dimension_mismatch_preserves_state mW1 mW1 kfA ⟨[], [], 2⟩ rfl
     (by with_unfolding_all decide)⟩

/-- Witness for C10: the empty width-1 series initialises the filter of the
fresh default model. -/
theorem C10_witness :
    KalmanFilter.init ((1 : Nat) : Int) none none none none none none none = .ok mW ∧
    ∃ k₀, KalmanFilter.filter mW ⟨[], [], 1⟩ =
        ({ mW with kf := some k₀ }, .ok ⟨[], [], 1⟩) ∧
      k₀.dim_z = 1 ∧
      ∀ s' : TimeSeries, s'.width ≠ 1 →
        KalmanFilter.filter { mW with kf := some k₀ } s' =
          ({ mW with kf := some k₀ }, .error .dimensionMismatch) :=
  ⟨by with_unfolding_all decide,
   C10_empty_series_initialises_filter 1 none none none none none none 1 mW
     (by with_unfolding_all decide)⟩

end Darts
